import Mathlib

/-!
Verification of the Click_Record application: an Express server (in
readme.md, final `server.js`) that records button clicks in a MongoDB
collection named `clicks` and serves them back, and a browser-side polling
client (`client.js`) that displays the count.

The server routes and startup logic, and the client's poll loop, are
embedded shallowly below.  Store operations are fallible: the MongoDB
driver passes an `err` value to each callback, modelled here as an
`Option String` fault injected per operation.  Times (`new Date()`) are
modelled as natural numbers.
-/

namespace ClickRecord

/-- A stored document of the `clicks` collection.  The server builds it as
a literal object with a single field, `clickTime: new Date()` — one
server-assigned timestamp and nothing else. -/
structure Click where
  clickTime : Nat
deriving DecidableEq, Repr

/-- The `clicks` collection: an ordered sequence of documents, in
store-native (insertion) order. -/
abbrev ClicksDB := List Click

/-- An incoming HTTP request to `POST /clicked`.  The route requires no
payload; we still model arbitrary client-supplied data (a body, and even a
client-proposed time) so that we can state that the handler ignores all of
it — the source handler never reads `req`. -/
structure Request where
  reqBody : Option String
  clientTime : Option Nat
deriving DecidableEq, Repr

/-- The bodies the two routes can produce: nothing, plain text (as sent by
Express for `res.sendStatus`), or a JSON array of click documents (as sent
by `res.send(result)`). -/
inductive Body where
  | empty : Body
  | text : String → Body
  | jsonArr : List Click → Body
deriving DecidableEq, Repr

/-- An HTTP response: a status code and a body. -/
structure HttpResponse where
  status : Nat
  respBody : Body
deriving DecidableEq, Repr

/-- Express's `res.sendStatus(201)`: sets the status code to 201 and sends
the registered status message for that code — the text "Created" — as the
response body (it is equivalent to `res.status(201).send("Created")`). -/
def sendStatus201 : HttpResponse :=
  { status := 201, respBody := Body.text "Created" }

/-- A fault injected into one store operation: `some err` means the MongoDB
driver invoked the callback with a non-null `err`; `none` means success. -/
abbrev Fault := Option String

/-- The route handler registered by `app.post('/clicked', (req, res) => ...)`:
it builds the document `click` with `clickTime = new Date()` (the current
server time),
then calls `db.collection('clicks').save(click, cb)`.  Since `click`
carries no `_id`, Mongo's `save` always inserts a new document.  In the
callback, `if (err) return console.log(err)` — the collection is unchanged
and NO response is ever written; otherwise the document is stored and
`res.sendStatus(201)` replies.  Result: the collection after the request,
and the response sent, if any. -/
def handleClicked (_req : Request) (now : Nat) (fault : Fault)
    (db : ClicksDB) : ClicksDB × Option HttpResponse :=
  let click : Click := { clickTime := now }
  match fault with
  | some _ => (db, none)
  | none => (db ++ [click], some sendStatus201)

/-- The route handler registered by `app.get('/clicks', (req, res) => ...)`:
it calls `db.collection('clicks').find().toArray(cb)`.  In the callback,
`if (err) return console.log(err)` — NO response is written; otherwise
`res.send(result)` replies with status 200 and the full collection
serialised as a JSON array.  Reading never modifies the collection. -/
def handleClicks (fault : Fault) (db : ClicksDB) :
    ClicksDB × Option HttpResponse :=
  match fault with
  | some _ => (db, none)
  | none => (db, some { status := 200, respBody := Body.jsonArr db })

/-- A sequence of successful `POST /clicked` requests, one per element of
`times` (each element is the server clock when that request is processed),
run left to right against the collection. -/
def runPosts (times : List Nat) (db : ClicksDB) : ClicksDB :=
  times.foldl (fun d t => (handleClicked ⟨none, none⟩ t none d).1) db

/-- The observable outcome of the startup code
`MongoClient.connect(url, (err, database) => ...)`: whether the global
`db` handle was assigned and whether `app.listen(8080, ...)` ran. -/
structure BootState where
  dbSet : Bool
  listening : Bool
deriving DecidableEq, Repr

/-- The startup callback: on a connect error it does
`return console.log(err)` — the handle stays unset and `app.listen` is
never reached; on success it assigns `db = database` and only then calls
`app.listen(8080, ...)`. -/
def startup (connectErr : Fault) : BootState :=
  match connectErr with
  | some _ => { dbSet := false, listening := false }
  | none => { dbSet := true, listening := true }

/-- The outcome of one `fetch('/clicks')` poll as `client.js` discriminates
it: a non-ok response makes the first handler throw, `response.json()` can
reject while parsing, and otherwise the parsed array reaches the second
handler. -/
inductive PollOutcome where
  | notOk : PollOutcome
  | jsonError : String → PollOutcome
  | ok : List Click → PollOutcome
deriving DecidableEq, Repr

/-- The browser state the poll loop touches: the text of the
`counter` element. -/
structure ClientState where
  counterText : String
deriving DecidableEq, Repr

/-- The string written to the counter element on a successful poll:
the template literal built from `data.length` in `client.js`. -/
def counterMessage (n : Nat) : String :=
  "Button was clicked " ++ toString n ++ " times"

/-- The period, in milliseconds, of the `setInterval(..., 1000)` call in
`client.js`. -/
def pollIntervalMs : Nat := 1000

/-- The instant at which the k-th firing of the interval callback occurs
(`setInterval` first fires after one full period); it depends only on k,
never on the outcomes of earlier polls. -/
def pollFireTime (k : Nat) : Nat := pollIntervalMs * (k + 1)

/-- One firing of the interval callback: on a successful poll the handler
writes `counterMessage data.length` into the counter element; on a non-ok
response or a JSON parse error control reaches only the `catch`, which
logs the error — nothing else happens.  Result: the new browser state and
the console lines produced. -/
def pollStep (st : ClientState) (o : PollOutcome) : ClientState × List String :=
  match o with
  | PollOutcome.ok data => ({ counterText := counterMessage data.length }, [])
  | PollOutcome.notOk => (st, ["Error: Request failed."])
  | PollOutcome.jsonError e => (st, [e])

/-- The poll loop over a finite trace of outcomes: every firing is
processed in order, whatever the outcomes were — `client.js` never clears
the interval. -/
def runPolls (st : ClientState) (os : List PollOutcome) :
    ClientState × List String :=
  match os with
  | [] => (st, [])
  | o :: rest =>
      let p := pollStep st o
      let q := runPolls p.1 rest
      (q.1, p.2 ++ q.2)

/-- Helper: posting against any collection only appends; the records
produced by the posts themselves are independent of the starting
collection. -/
theorem runPosts_append (ts : List Nat) (db : ClicksDB) :
    runPosts ts db = db ++ runPosts ts [] := by
  induction ts generalizing db with
  | nil => simp [runPosts]
  | cons t ts ih =>
      show runPosts ts (db ++ [⟨t⟩]) = db ++ runPosts ts [⟨t⟩]
      rw [ih (db ++ [Click.mk t]), ih [Click.mk t], List.append_assoc]

/-- Helper: a trace of K successful posts grows the collection by
exactly K records. -/
theorem runPosts_length (ts : List Nat) (db : ClicksDB) :
    (runPosts ts db).length = db.length + ts.length := by
  induction ts generalizing db with
  | nil => simp [runPosts]
  | cons t ts ih =>
      show (runPosts ts (db ++ [⟨t⟩])).length = db.length + (t :: ts).length
      rw [ih (db ++ [Click.mk t])]
      simp
      omega

/-- Claim C1: the spec requires every store failure during `POST /clicked`
or `GET /clicks` to produce an explicit 5xx response.  The code does not:
in both route callbacks the error branch is `return console.log(err)`, so
the failing request is left without any response.  This theorem evaluates
both handlers at a failing store operation and shows no response is
sent. -/
theorem storeFailureSendsNoResponse :
    (handleClicked ⟨none, none⟩ 0 (some "MongoError: topology was destroyed")
      []).2 = none
    ∧ (handleClicks (some "MongoError: topology was destroyed") []).2
      = none :=
  ⟨rfl, rfl⟩

/-- Claim C2: after K successful `POST /clicked` requests starting from an
empty `clicks` collection and with no other writers, a successful
`GET /clicks` returns status 200 with a sequence of length exactly K
(K = the number of posts, here the length of the timestamp trace). -/
theorem queryReturnsAllPosted (ts : List Nat) :
    (handleClicks none (runPosts ts [])).2
      = some { status := 200, respBody := Body.jsonArr (runPosts ts []) }
    ∧ (runPosts ts []).length = ts.length := by
  refine ⟨rfl, ?_⟩
  simpa using runPosts_length ts []

/-- Claim C3: every successful `POST /clicked` grows the `clicks`
collection by exactly one record, and a trace of N successful posts adds
exactly N records — even when the timestamps coincide, nothing is
deduplicated. -/
theorem eachPostAddsOneRecord (req : Request) (now : Nat) (db : ClicksDB) :
    (handleClicked req now none db).1.length = db.length + 1
    ∧ ∀ ts : List Nat, (runPosts ts db).length = db.length + ts.length := by
  constructor
  · show (db ++ [Click.mk now]).length = db.length + 1
    simp
  · exact fun ts => runPosts_length ts db

/-- Claim C4, counterexample: the claim says a successful `POST /clicked`
responds 201 with an EMPTY body, but the handler calls
`res.sendStatus(201)`, which sends the status message "Created" as a text
body — a non-empty body. -/
theorem post201BodyIsCreatedText :
    (handleClicked ⟨none, none⟩ 5 none []).2
      = some { status := 201, respBody := Body.text "Created" }
    ∧ Body.text "Created" ≠ Body.empty :=
  ⟨rfl, fun h => Body.noConfusion h⟩

/-- Claim C4, amended: for every `POST /clicked` request whose store insert
succeeds, the service responds with status 201; the body is the default
status-message text "Created" produced by `res.sendStatus(201)`, not an
empty body. -/
theorem post201CreatedOnSuccess (req : Request) (now : Nat) (db : ClicksDB) :
    (handleClicked req now none db).2
      = some { status := 201, respBody := Body.text "Created" } :=
  rfl

/-- Claim C5: the stored ClickEvent's `clickTime` is exactly the server
clock at processing time, and the handler's entire behaviour is
independent of the request — any client-supplied body or time field is
ignored. -/
theorem timestampServerAssigned (r1 r2 : Request) (now : Nat)
    (db : ClicksDB) :
    (handleClicked r1 now none db).1 = db ++ [{ clickTime := now }]
    ∧ ∀ fault, handleClicked r1 now fault db
        = handleClicked r2 now fault db :=
  ⟨rfl, fun _ => rfl⟩

/-- Claim C6: a successful `GET /clicks` on an empty `clicks` collection
responds with status 200 and the empty JSON array — a response is sent and
it is not an error. -/
theorem emptyStoreReturnsEmptyArray :
    (handleClicks none []).2
      = some { status := 200, respBody := Body.jsonArr [] } :=
  rfl

/-- Claim C7: `app.listen(8080, ...)` runs only inside the success branch
of the `MongoClient.connect` callback: a failed startup connection never
starts the HTTP listener, and the listener running implies the connection
succeeded. -/
theorem noServingBeforeConnect :
    (∀ e, (startup (some e)).listening = false)
    ∧ ∀ c, (startup c).listening = true → c = none := by
  refine ⟨fun e => rfl, fun c h => ?_⟩
  cases c with
  | none => rfl
  | some e => simp [startup] at h

/-- Claim C7 witness: the theorem applied at a concrete failed connection
and at the successful one. -/
theorem noServingBeforeConnectInstance :
    (startup (some "failed to connect to server")).listening = false
    ∧ (none : Fault) = none :=
  ⟨noServingBeforeConnect.1 "failed to connect to server",
   noServingBeforeConnect.2 none rfl⟩

/-- Claim C8: stored records are immutable.  A `POST /clicked` — successful
or failed — leaves every existing record in place unchanged (the old
collection is an unchanged prefix of the new one); a `GET /clicks` leaves
the collection exactly as it was; and any trace of posts still preserves
the existing records. -/
theorem storedClicksImmutable (req : Request) (now : Nat) (fault : Fault)
    (db : ClicksDB) (ts : List Nat) :
    ((handleClicked req now fault db).1).take db.length = db
    ∧ (handleClicks fault db).1 = db
    ∧ (runPosts ts db).take db.length = db := by
  refine ⟨?_, ?_, ?_⟩
  · cases fault with
    | some e => exact List.take_length db
    | none =>
        show (db ++ [Click.mk now]).take db.length = db
        exact List.take_left db [Click.mk now]
  · cases fault with
    | some e => rfl
    | none => rfl
  · rw [runPosts_append]
    exact List.take_left db (runPosts ts [])

/-- Claim C9: the polling client fires one `GET /clicks` per second at a
fixed cadence (consecutive firing instants differ by exactly the 1000 ms
interval, independent of outcomes); on every successful response it sets
the counter text from the length of the returned sequence; on every
failure it leaves the state unchanged except for logging; and after any
firing, successful or not, the loop processes the whole remaining trace at
the same schedule. -/
theorem pollingClientBehaviour :
    pollIntervalMs = 1000
    ∧ (∀ k, pollFireTime (k + 1) - pollFireTime k = pollIntervalMs)
    ∧ (∀ st data, (pollStep st (PollOutcome.ok data)).1.counterText
        = counterMessage data.length)
    ∧ (∀ st o, (o = PollOutcome.notOk ∨ ∃ e, o = PollOutcome.jsonError e) →
        (pollStep st o).1 = st ∧ (pollStep st o).2 ≠ [])
    ∧ ∀ st o os, runPolls st (o :: os)
        = ((runPolls (pollStep st o).1 os).1,
           (pollStep st o).2 ++ (runPolls (pollStep st o).1 os).2) := by
  refine ⟨rfl, fun k => ?_, fun st data => rfl, fun st o h => ?_,
    fun st o os => rfl⟩
  · simp [pollFireTime, pollIntervalMs]
    omega
  · rcases h with h | ⟨e, h⟩ <;> subst h
    · exact ⟨rfl, fun h => List.noConfusion h⟩
    · exact ⟨rfl, fun h => List.noConfusion h⟩

/-- Claim C9 witness: the theorem applied at a concrete failed poll
(non-ok response), discharging the failure hypothesis. -/
theorem pollingClientBehaviourInstance :
    (pollStep ⟨"Loading button click data."⟩ PollOutcome.notOk).1
      = ⟨"Loading button click data."⟩
    ∧ (pollStep ⟨"Loading button click data."⟩ PollOutcome.notOk).2 ≠ [] :=
  pollingClientBehaviour.2.2.2.1 ⟨"Loading button click data."⟩
    PollOutcome.notOk (Or.inl rfl)

/-- Claim C10: on any failed poll — non-ok HTTP response or JSON parse
error, i.e. any outcome that is not a success — the counter element's text
is left unchanged; the success branch is the only place the counter is
written. -/
theorem counterUnchangedOnFailedPoll (st : ClientState) (o : PollOutcome)
    (h : ∀ data, o ≠ PollOutcome.ok data) :
    (pollStep st o).1.counterText = st.counterText := by
  cases o with
  | ok data => exact absurd rfl (h data)
  | notOk => rfl
  | jsonError e => rfl

/-- Claim C10 witness: the theorem applied at a concrete JSON parse
failure, discharging the non-success hypothesis. -/
theorem counterUnchangedOnFailedPollInstance :
    (pollStep ⟨"Button was clicked 2 times"⟩
      (PollOutcome.jsonError "SyntaxError")).1.counterText
      = "Button was clicked 2 times" :=
  counterUnchangedOnFailedPoll ⟨"Button was clicked 2 times"⟩
    (PollOutcome.jsonError "SyntaxError")
    (fun _ h => PollOutcome.noConfusion h)

end ClickRecord
